import Mathlib

/-!
Shallow embedding of the qibBack document-management backend
(`src/server.js`): data model (users, companies, productions, documents,
blob objects), the external collaborators (bcrypt, the JWT library, the
MySQL pool and the S3 client) modelled as idealized pure interfaces, and
each Express route handler as a pure function from its request and the
store states to an HTTP response together with a trace of the pool/storage
events it performs.
-/

namespace QibBack

/-! ## Data model (relational rows and blob objects) -/

/-- A row of the `users` table: `id`, `username`, bcrypt verifier stored in
the `password` column, `company_id`. -/
structure User where
  id : Nat
  username : String
  password : String
  company_id : Nat
deriving DecidableEq, Repr

/-- A row of the `companies` table. -/
structure Company where
  id : Nat
  name : String
deriving DecidableEq, Repr

/-- A row of the `productions` table; belongs to one company. -/
structure Production where
  id : Nat
  name : String
  company_id : Nat
deriving DecidableEq, Repr

/-- A row of the `documents` table; `s3_key` points into the blob store. -/
structure Document where
  id : Nat
  production_id : Nat
  file_name : String
  s3_key : String
  version : String
deriving DecidableEq, Repr

/-- The relational database state: the four tables the handlers touch. -/
structure DB where
  users : List User
  companies : List Company
  productions : List Production
  documents : List Document
deriving DecidableEq, Repr

/-- One object in the S3 bucket: a key and its bytes. -/
structure S3Object where
  key : String
  bytes : List Nat
deriving DecidableEq, Repr

/-- The blob-store state: the bucket's objects. -/
structure S3 where
  objects : List S3Object
deriving DecidableEq, Repr

/-! ## External collaborators, idealized

`bcrypt` is modelled as an opaque injective one-way hash (the server only
ever calls `bcrypt.hash` at registration and `bcrypt.compare` at login);
`jsonwebtoken` is modelled as ideal signing: a token records the payload,
the expiry second and the secret it was signed with, and verification
succeeds exactly when the secrets match and the expiry has not passed
(jsonwebtoken checks the signature first, then rejects with TokenExpired
when the clock is at or past `exp`; `expiresIn: '1h'` sets
`exp = iat + 3600`). -/

/-- Idealized `bcrypt.hash(raw, 10)`. -/
def bcryptHash (rawPassword : String) : String :=
  "bcrypt$" ++ rawPassword

/-- Idealized `bcrypt.compare(raw, stored)`. -/
def bcryptCompare (rawPassword stored : String) : Bool :=
  stored == bcryptHash rawPassword

/-- The payload signed at login: `{ id: user.id, company_id: user.company_id }`. -/
structure Claim where
  id : Nat
  company_id : Nat
deriving DecidableEq, Repr

/-- A signed JWT: payload, expiry instant (seconds), and the secret whose
signature it carries (ideal unforgeability). -/
structure Token where
  payload : Claim
  exp : Nat
  sig : String
deriving DecidableEq, Repr

inductive JwtError
  | expired
  | invalid
deriving DecidableEq, Repr

/-- `jwt.sign(payload, secret, { expiresIn: '1h' })` at clock second `now`. -/
def jwtSign (payload : Claim) (secret : String) (now : Nat) : Token :=
  ⟨payload, now + 3600, secret⟩

/-- `jwt.verify(token, secret)` at clock second `now`: bad signature is
rejected first (`TokenInvalid`), then a clock at or past `exp` is rejected
(`TokenExpired`), otherwise the decoded payload is returned. -/
def jwtVerify (t : Token) (secret : String) (now : Nat) : Except JwtError Claim :=
  if t.sig ≠ secret then .error .invalid
  else if t.exp ≤ now then .error .expired
  else .ok t.payload

/-! ## HTTP surface -/

/-- A row of the `/documents` join: `d.*` plus the denormalized production
and company names. -/
structure DocRow where
  doc : Document
  production_name : String
  company_name : String
deriving DecidableEq, Repr

/-- The projection `SELECT id, username, company_id FROM users`: the only
fields `/user` ever reads; the verifier column is not selected. -/
structure UserView where
  id : Nat
  username : String
  company_id : Nat
deriving DecidableEq, Repr

/-- The body of a response: plain text, a JSON value, or a piped attachment
(`res.attachment(name)` + streamed bytes). -/
inductive Body
  | text (s : String)
  | jsonProductions (rows : List Production)
  | jsonDocRows (rows : List DocRow)
  | jsonToken (t : Token)
  | jsonClaim (c : Claim)
  | jsonUserView (u : UserView)
  | file (filename : String) (bytes : List Nat)
deriving DecidableEq, Repr

/-- An HTTP response: status code and body. `res.send(x)` with no prior
`res.status(...)` responds with status 200. -/
structure Response where
  status : Nat
  body : Body
deriving DecidableEq, Repr

/-- Observable events against the shared resources: acquiring / querying /
releasing a pooled MySQL connection, and S3 put / get. -/
inductive Event
  | dbAcquire
  | dbQuery
  | dbRelease
  | s3Put
  | s3Get
deriving DecidableEq, Repr

/-- The ordered trace of pool and storage events a handler performs. -/
abbrev Trace := List Event

/-! ## Authorization Guard (`auth` middleware, `src/server.js` lines 48-60)

The JS reads `req.header('Authorization').replace('Bearer ', '')`.  The
possible shapes of the `Authorization` header value after that call are
modelled by `HeaderVal`: a value that strips to the empty string (the
header `"Bearer "` or `""`), a value that strips to a well-formed signed
token, or a value that strips to a string `jwt.verify` cannot parse.  When
the header is ABSENT, `req.header` returns `undefined` and the `.replace`
call itself throws a `TypeError` before the `if (!token)` check is ever
reached; Express's default error handler turns that synchronous throw into
a 500 response. -/

/-- The `Authorization` header value after stripping the `"Bearer "` prefix. -/
inductive HeaderVal
  | empty
  | tok (t : Token)
  | garbage (s : String)
deriving DecidableEq, Repr

/-- Outcome of the `auth` middleware for one request. -/
inductive AuthResult
  | typeError
  | accessDenied
  | invalidToken
  | authorized (c : Claim)
deriving DecidableEq, Repr

/-- The `auth` middleware (lines 48-60).  `header = none` models a request
with no `Authorization` header: `req.header(...)` is `undefined`, so
`.replace` throws `TypeError` (`typeError`).  A present header stripping to
the empty string hits `if (!token)` and yields 401 `Access denied`
(`accessDenied`); a present token is passed to `jwt.verify`, whose throw is
caught and answered with 401 `Invalid token` (`invalidToken`); on success
the decoded claim is attached to `req.user` (`authorized`). -/
def auth (header : Option HeaderVal) (secret : String) (now : Nat) : AuthResult :=
  match header with
  | none => .typeError
  | some .empty => .accessDenied
  | some (.garbage _) => .invalidToken
  | some (.tok t) =>
    match jwtVerify t secret now with
    | .error _ => .invalidToken
    | .ok c => .authorized c

/-- Route composition `app.get(path, auth, handler)`: the handler body runs
only when `auth` attached a claim.  A thrown `TypeError` reaches Express's
default error handler (status 500); the two guard rejections answer 401;
in every non-authorized case the handler body never runs, so the trace of
pool/storage events is empty. -/
def withAuth (header : Option HeaderVal) (secret : String) (now : Nat)
    (handler : Claim → Response × Trace) : Response × Trace :=
  match auth header secret now with
  | .typeError => (⟨500, .text "TypeError: Cannot read properties of undefined"⟩, [])
  | .accessDenied => (⟨401, .text "Access denied"⟩, [])
  | .invalidToken => (⟨401, .text "Invalid token"⟩, [])
  | .authorized c => handler c

/-! ## Queries (the SQL each handler issues, over the table lists)

Each handler may find its `connection.query` call throwing (network / SQL
failure).  That possibility is modelled by a `dbErr : Option String`
parameter: `none` means the query succeeds against the given `DB`,
`some msg` means the awaited query rejects with an error whose string
form is `msg`, transferring control to the handler's `catch` block. -/

/-- `SELECT * FROM productions WHERE company_id = ?` (line 149). -/
def productionsQuery (db : DB) (companyId : Nat) : List Production :=
  db.productions.filter (fun p => p.company_id == companyId)

/-- The `/documents` join (lines 162-168):
`SELECT d.*, p.name, c.name FROM documents d JOIN productions p ON
d.production_id = p.id JOIN companies c ON p.company_id = c.id WHERE
c.id = ?`. -/
def documentsQuery (db : DB) (companyId : Nat) : List DocRow :=
  db.documents.flatMap (fun d =>
    db.productions.flatMap (fun p =>
      db.companies.filterMap (fun c =>
        if d.production_id = p.id ∧ p.company_id = c.id ∧ c.id = companyId then
          some ⟨d, p.name, c.name⟩
        else none)))

/-- `SELECT * FROM documents WHERE id = ?` (line 184); `rows[0]`. -/
def documentById (db : DB) (docId : Nat) : Option Document :=
  (db.documents.filter (fun d => d.id == docId)).head?

/-- `SELECT * FROM users WHERE username = ?` (line 253); `rows[0]`. -/
def userByUsername (db : DB) (username : String) : Option User :=
  (db.users.filter (fun u => u.username == username)).head?

/-- `SELECT id, username, company_id FROM users WHERE id = ?` (line 279);
`rows[0]`.  Only the three selected columns are returned. -/
def userViewById (db : DB) (userId : Nat) : Option UserView :=
  ((db.users.filter (fun u => u.id == userId)).map
    (fun u => UserView.mk u.id u.username u.company_id)).head?

/-- `s3Client.send(new GetObjectCommand({ Key: key }))`. -/
def s3Get (s3 : S3) (key : String) : Option S3Object :=
  s3.objects.find? (fun o => o.key == key)

/-- Auto-increment id for an inserted `documents` row. -/
def freshDocId (db : DB) : Nat :=
  (db.documents.map Document.id).foldr max 0 + 1

/-! ## Route handler bodies (run after `auth` has attached `req.user`)

Each handler follows the JS control flow exactly.  In every document
handler the `catch` block is `console.error(err); res.send('Error ' + err)`
— `res.send` with no prior `res.status` answers with status 200 — and it
does NOT call `connection.release()`, so on the query-throw path the trace
ends after `dbQuery` with no `dbRelease`. -/

/-- `GET /productions` handler body (lines 146-156). -/
def productionsHandler (claim : Claim) (db : DB) (dbErr : Option String) :
    Response × Trace :=
  match dbErr with
  | some msg => (⟨200, .text ("Error " ++ msg)⟩, [.dbAcquire, .dbQuery])
  | none =>
    (⟨200, .jsonProductions (productionsQuery db claim.company_id)⟩,
     [.dbAcquire, .dbQuery, .dbRelease])

/-- `GET /documents` handler body (lines 159-176). -/
def documentsHandler (claim : Claim) (db : DB) (dbErr : Option String) :
    Response × Trace :=
  match dbErr with
  | some msg => (⟨200, .text ("Error " ++ msg)⟩, [.dbAcquire, .dbQuery])
  | none =>
    (⟨200, .jsonDocRows (documentsQuery db claim.company_id)⟩,
     [.dbAcquire, .dbQuery, .dbRelease])

/-- The multipart request `POST /upload` carries: the uploaded file
(original name and bytes) plus body fields `production_id` and `version`. -/
structure UploadReq where
  originalname : String
  bytes : List Nat
  production_id : Nat
  version : String
deriving DecidableEq, Repr

/-- `POST /upload` (lines 102-111 and 127-143).  The `multer-s3` storage
engine first writes the file bytes to S3 under
`uploads/{Date.now()}_{originalname}`; the handler body then inserts a
`documents` row referencing that key — with the `production_id` taken
verbatim from the request body, never compared against
`claim.company_id`.  Returns (response, new DB, new S3, trace). -/
def uploadHandler (_claim : Claim) (rq : UploadReq) (now : Nat)
    (db : DB) (s3 : S3) (dbErr : Option String) :
    Response × DB × S3 × Trace :=
  let key := "uploads/" ++ toString now ++ "_" ++ rq.originalname
  let s3' : S3 := ⟨s3.objects ++ [⟨key, rq.bytes⟩]⟩
  match dbErr with
  | some msg =>
    (⟨200, .text ("Error " ++ msg)⟩, db, s3', [.s3Put, .dbAcquire, .dbQuery])
  | none =>
    let d : Document :=
      ⟨freshDocId db, rq.production_id, rq.originalname, key, rq.version⟩
    (⟨200, .text ("File uploaded successfully: " ++ key)⟩,
     ⟨db.users, db.companies, db.productions, db.documents ++ [d]⟩, s3',
     [.s3Put, .dbAcquire, .dbQuery, .dbRelease])

/-- `GET /download/:id` handler body (lines 179-202): fetch the row by
primary key only (no company filter), 404 `Document not found` when no row
matches, otherwise fetch the blob by the row's `s3_key` and pipe it with
`res.attachment(file_name)`.  An S3 throw (e.g. `NoSuchKey`) lands in the
same `catch` as a query throw. -/
def downloadHandler (_claim : Claim) (docId : Nat) (db : DB) (s3 : S3)
    (dbErr : Option String) : Response × Trace :=
  match dbErr with
  | some msg => (⟨200, .text ("Error " ++ msg)⟩, [.dbAcquire, .dbQuery])
  | none =>
    match documentById db docId with
    | none =>
      (⟨404, .text "Document not found"⟩, [.dbAcquire, .dbQuery, .dbRelease])
    | some d =>
      match s3Get s3 d.s3_key with
      | none =>
        (⟨200, .text "Error NoSuchKey"⟩,
         [.dbAcquire, .dbQuery, .dbRelease, .s3Get])
      | some o =>
        (⟨200, .file d.file_name o.bytes⟩,
         [.dbAcquire, .dbQuery, .dbRelease, .s3Get])

/-- `POST /login` (lines 249-268): look the user up by username (`rows[0]`),
answer 401 `Invalid credentials` when no row matches OR when
`bcrypt.compare` fails — the same status and body in both cases — and on
success sign `{ id, company_id }` with the service secret, 1-hour expiry.
Its `catch` is `res.status(400).send(err.message)`. -/
def loginHandler (username rawPassword : String) (db : DB)
    (secret : String) (now : Nat) (dbErr : Option String) :
    Response × Trace :=
  match dbErr with
  | some msg => (⟨400, .text msg⟩, [.dbAcquire, .dbQuery])
  | none =>
    match userByUsername db username with
    | none =>
      (⟨401, .text "Invalid credentials"⟩, [.dbAcquire, .dbQuery, .dbRelease])
    | some u =>
      if bcryptCompare rawPassword u.password then
        (⟨200, .jsonToken (jwtSign ⟨u.id, u.company_id⟩ secret now)⟩,
         [.dbAcquire, .dbQuery, .dbRelease])
      else
        (⟨401, .text "Invalid credentials"⟩, [.dbAcquire, .dbQuery, .dbRelease])

/-- `GET /user` handler body (lines 276-288): select only
`id, username, company_id` for `req.user.id`; 404 when absent. -/
def userHandler (claim : Claim) (db : DB) (dbErr : Option String) :
    Response × Trace :=
  match dbErr with
  | some msg => (⟨400, .text msg⟩, [.dbAcquire, .dbQuery])
  | none =>
    match userViewById db claim.id with
    | none => (⟨404, .text "User not found"⟩, [.dbAcquire, .dbQuery, .dbRelease])
    | some v => (⟨200, .jsonUserView v⟩, [.dbAcquire, .dbQuery, .dbRelease])

/-- `GET /validate-token` handler body (lines 271-273): echo the claim. -/
def validateTokenHandler (claim : Claim) : Response × Trace :=
  (⟨200, .jsonClaim claim⟩, [])

/-- A trace is pool-balanced when every acquired connection was released. -/
def balanced (tr : Trace) : Prop :=
  tr.count .dbRelease = tr.count .dbAcquire

/-! ## Theorems -/

/-- Membership in the `/documents` join, unfolded to its relational
meaning. -/
theorem mem_documentsQuery (db : DB) (cid : Nat) (row : DocRow) :
    row ∈ documentsQuery db cid ↔
      ∃ d ∈ db.documents, ∃ p ∈ db.productions, ∃ c ∈ db.companies,
        d.production_id = p.id ∧ p.company_id = c.id ∧ c.id = cid ∧
        row = ⟨d, p.name, c.name⟩ := by
  simp only [documentsQuery, List.mem_flatMap, List.mem_filterMap,
    Option.ite_none_right_eq_some, Option.some.injEq]
  constructor
  · rintro ⟨d, hd, p, hp, c, hc, ⟨h1, h2, h3⟩, h4⟩
    exact ⟨d, hd, p, hp, c, hc, h1, h2, h3, h4.symm⟩
  · rintro ⟨d, hd, p, hp, c, hc, h1, h2, h3, h4⟩
    exact ⟨d, hd, p, hp, c, hc, ⟨h1, h2, h3⟩, h4.symm⟩

/-- C1: the claim states that a request to a bearer-protected route with no
`Authorization` header is answered 401 `Access denied` without touching the
database or the blob store.  On the code, `req.header('Authorization')` is
`undefined` for such a request, so `.replace('Bearer ', '')` throws a
`TypeError` before the `if (!token)` 401 branch can run, and Express's
default error handler answers 500; the database pool and the blob store are
indeed untouched (empty event trace), but the status is 500, not the
intended 401. -/
theorem c1_missing_header_throws_before_401 (secret : String) (now : Nat)
    (handler : Claim → Response × Trace) :
    auth none secret now = .typeError ∧
    withAuth none secret now handler =
      (⟨500, .text "TypeError: Cannot read properties of undefined"⟩, []) :=
  ⟨rfl, rfl⟩

/-- C2: `listDocuments` is tenant-scoped: when production ids are unique
(primary key), every row returned for company `A` has a production owned by
`A`; in particular, for any other company `B`, no row whose production
belongs to `B` appears. -/
theorem c2_listDocuments_tenant_isolation (db : DB) (A B : Nat) (hAB : A ≠ B)
    (hnodup : (db.productions.map Production.id).Nodup)
    (row : DocRow) (hrow : row ∈ documentsQuery db A)
    (p : Production) (hp : p ∈ db.productions)
    (hpid : p.id = row.doc.production_id) :
    p.company_id = A ∧ p.company_id ≠ B := by
  obtain ⟨d, hd, p', hp', c, hc, h1, h2, h3, h4⟩ :=
    (mem_documentsQuery db A row).1 hrow
  have hdoc : row.doc = d := by rw [h4]
  have hpp : p = p' := by
    refine List.inj_on_of_nodup_map hnodup hp hp' ?_
    rw [hpid, hdoc, h1]
  have hpA : p.company_id = A := by rw [hpp, h2, h3]
  exact ⟨hpA, fun hB => hAB (hpA ▸ hB ▸ rfl)⟩

/-- Two-tenant database used to witness C2: companies 1 and 2, one
production and one document each. -/
def dbC2 : DB :=
  ⟨[], [⟨1, "A"⟩, ⟨2, "B"⟩], [⟨10, "pa", 1⟩, ⟨20, "pb", 2⟩],
   [⟨100, 10, "f", "k", "v"⟩, ⟨200, 20, "g", "k2", "v"⟩]⟩

/-- Witness for C2 on `dbC2`. -/
theorem c2_witness :
    (⟨⟨100, 10, "f", "k", "v"⟩, "pa", "A"⟩ : DocRow) ∈ documentsQuery dbC2 1 ∧
    (⟨10, "pa", 1⟩ : Production) ∈ dbC2.productions ∧
    ((⟨10, "pa", 1⟩ : Production).company_id = 1 ∧
      (⟨10, "pa", 1⟩ : Production).company_id ≠ 2) :=
  ⟨by decide, by decide,
    c2_listDocuments_tenant_isolation dbC2 1 2 (by decide) (by decide)
      ⟨⟨100, 10, "f", "k", "v"⟩, "pa", "A"⟩ (by decide)
      ⟨10, "pa", 1⟩ (by decide) (by decide)⟩

/-- C3: `GET /download/:id` fetches the document row by primary key only —
the query `SELECT * FROM documents WHERE id = ?` carries no company filter
— so for any authenticated claim, an existing document whose blob is
present is returned with its filename and bytes even when its production
belongs to a company different from `claim.company_id`. -/
theorem c3_download_ignores_requester_company (claim : Claim) (db : DB)
    (s3 : S3) (d : Document) (hd : documentById db d.id = some d)
    (o : S3Object) (ho : s3Get s3 d.s3_key = some o)
    (p : Production) (_hp : p ∈ db.productions)
    (_hpid : p.id = d.production_id)
    (_hcross : p.company_id ≠ claim.company_id) :
    downloadHandler claim d.id db s3 none =
      (⟨200, .file d.file_name o.bytes⟩,
       [.dbAcquire, .dbQuery, .dbRelease, .s3Get]) := by
  simp [downloadHandler, hd, ho]

/-- Cross-tenant database used to witness C3: the only production belongs
to company 2, the requester's claim carries company 1. -/
def dbC3 : DB := ⟨[], [], [⟨10, "p", 2⟩], [⟨5, 10, "file.pdf", "k", "v1"⟩]⟩

/-- Blob store used to witness C3. -/
def s3C3 : S3 := ⟨[⟨"k", [1, 2, 3]⟩]⟩

/-- Witness for C3: a company-1 claim downloads company 2's document. -/
theorem c3_witness :
    documentById dbC3 5 = some ⟨5, 10, "file.pdf", "k", "v1"⟩ ∧
    (⟨10, "p", 2⟩ : Production).company_id ≠ (⟨7, 1⟩ : Claim).company_id ∧
    downloadHandler ⟨7, 1⟩ 5 dbC3 s3C3 none =
      (⟨200, .file "file.pdf" [1, 2, 3]⟩,
       [.dbAcquire, .dbQuery, .dbRelease, .s3Get]) :=
  ⟨by decide, by decide,
    c3_download_ignores_requester_company ⟨7, 1⟩ dbC3 s3C3
      ⟨5, 10, "file.pdf", "k", "v1"⟩ (by decide) ⟨"k", [1, 2, 3]⟩ (by decide)
      ⟨10, "p", 2⟩ (by decide) (by decide) (by decide)⟩

/-- C4: round-trip of issue and verify.  `login` for a stored user with the
correct password answers 200 with a token signed on `{id, company_id}`
with the service secret and a 1-hour lifetime; that token verifies to
exactly that claim at every instant strictly before `now + 3600`, and
fails with `TokenExpired` at and after `now + 3600`. -/
theorem c4_login_token_roundtrip (db : DB) (secret : String) (now : Nat)
    (username raw : String) (u : User)
    (hu : userByUsername db username = some u)
    (hpw : bcryptCompare raw u.password = true) :
    loginHandler username raw db secret now none =
      (⟨200, .jsonToken (jwtSign ⟨u.id, u.company_id⟩ secret now)⟩,
       [.dbAcquire, .dbQuery, .dbRelease]) ∧
    (∀ t, t < now + 3600 →
      jwtVerify (jwtSign ⟨u.id, u.company_id⟩ secret now) secret t =
        .ok ⟨u.id, u.company_id⟩) ∧
    (∀ t, now + 3600 ≤ t →
      jwtVerify (jwtSign ⟨u.id, u.company_id⟩ secret now) secret t =
        .error .expired) := by
  refine ⟨?_, ?_, ?_⟩
  · simp [loginHandler, hu, hpw]
  · intro t ht
    simp [jwtVerify, jwtSign, Nat.not_le.2 ht]
  · intro t ht
    simp [jwtVerify, jwtSign, ht]

/-- Credential store used to witness C4: one user, verifier of `"pw"`. -/
def dbC4 : DB := ⟨[⟨3, "alice", "bcrypt$pw", 9⟩], [], [], []⟩

/-- Witness for C4: login at second 0, verify at 3599 and at 3600. -/
theorem c4_witness :
    userByUsername dbC4 "alice" = some ⟨3, "alice", "bcrypt$pw", 9⟩ ∧
    loginHandler "alice" "pw" dbC4 "s" 0 none =
      (⟨200, .jsonToken ⟨⟨3, 9⟩, 3600, "s"⟩⟩,
       [.dbAcquire, .dbQuery, .dbRelease]) ∧
    jwtVerify ⟨⟨3, 9⟩, 3600, "s"⟩ "s" 3599 = .ok ⟨3, 9⟩ ∧
    jwtVerify ⟨⟨3, 9⟩, 3600, "s"⟩ "s" 3600 = .error .expired :=
  ⟨by decide,
    (c4_login_token_roundtrip dbC4 "s" 0 "alice" "pw"
      ⟨3, "alice", "bcrypt$pw", 9⟩ (by decide) (by decide)).1,
    (c4_login_token_roundtrip dbC4 "s" 0 "alice" "pw"
      ⟨3, "alice", "bcrypt$pw", 9⟩ (by decide) (by decide)).2.1 3599 (by decide),
    (c4_login_token_roundtrip dbC4 "s" 0 "alice" "pw"
      ⟨3, "alice", "bcrypt$pw", 9⟩ (by decide) (by decide)).2.2 3600 (by decide)⟩

/-- C5: both login failure cases — username absent, and username present
with a verifier mismatch — produce literally the same response, status 401
with body `Invalid credentials`, so the response does not reveal whether
the account exists. -/
theorem c5_login_uniform_invalid_credentials (db : DB) (secret : String)
    (now : Nat) (username raw : String)
    (hfail : userByUsername db username = none ∨
      ∃ u, userByUsername db username = some u ∧
        bcryptCompare raw u.password = false) :
    loginHandler username raw db secret now none =
      (⟨401, .text "Invalid credentials"⟩,
       [.dbAcquire, .dbQuery, .dbRelease]) := by
  rcases hfail with h | ⟨u, hu, hpw⟩
  · simp [loginHandler, h]
  · simp [loginHandler, hu, hpw]

/-- Credential store used to witness C5. -/
def dbC5 : DB := ⟨[⟨3, "alice", "bcrypt$pw", 9⟩], [], [], []⟩

/-- Witness for C5: unknown username and wrong password give the same
response. -/
theorem c5_witness :
    loginHandler "ghost" "x" dbC5 "s" 0 none =
      (⟨401, .text "Invalid credentials"⟩,
       [.dbAcquire, .dbQuery, .dbRelease]) ∧
    loginHandler "alice" "wrong" dbC5 "s" 0 none =
      (⟨401, .text "Invalid credentials"⟩,
       [.dbAcquire, .dbQuery, .dbRelease]) :=
  ⟨c5_login_uniform_invalid_credentials dbC5 "s" 0 "ghost" "x"
      (Or.inl (by decide)),
    c5_login_uniform_invalid_credentials dbC5 "s" 0 "alice" "wrong"
      (Or.inr ⟨⟨3, "alice", "bcrypt$pw", 9⟩, by decide, by decide⟩)⟩

/-- C6: when no document row has the requested id, `download` answers 404
`Document not found` — not a 500-class status — and the blob store is
never contacted. -/
theorem c6_download_nonexistent_is_404 (claim : Claim) (docId : Nat)
    (db : DB) (s3 : S3) (habs : ∀ d ∈ db.documents, d.id ≠ docId) :
    downloadHandler claim docId db s3 none =
      (⟨404, .text "Document not found"⟩,
       [.dbAcquire, .dbQuery, .dbRelease]) ∧
    (downloadHandler claim docId db s3 none).1.status < 500 ∧
    Event.s3Get ∉ (downloadHandler claim docId db s3 none).2 := by
  have hnil : db.documents.filter (fun d => d.id == docId) = [] := by
    rw [List.filter_eq_nil_iff]
    intro d hd
    simpa using habs d hd
  have hnone : documentById db docId = none := by
    unfold documentById
    rw [hnil]
    rfl
  have heq : downloadHandler claim docId db s3 none =
      (⟨404, .text "Document not found"⟩,
       [.dbAcquire, .dbQuery, .dbRelease]) := by
    simp [downloadHandler, hnone]
  refine ⟨heq, ?_, ?_⟩ <;> rw [heq] <;> decide

/-- Witness for C6: download id 999999 against a store with one unrelated
document. -/
theorem c6_witness :
    (∀ d ∈ (⟨[], [], [], [⟨5, 10, "f", "k", "v"⟩]⟩ : DB).documents,
      d.id ≠ 999999) ∧
    downloadHandler ⟨7, 1⟩ 999999 ⟨[], [], [], [⟨5, 10, "f", "k", "v"⟩]⟩
        ⟨[]⟩ none =
      (⟨404, .text "Document not found"⟩,
       [.dbAcquire, .dbQuery, .dbRelease]) :=
  ⟨by decide,
    (c6_download_nonexistent_is_404 ⟨7, 1⟩ 999999
      ⟨[], [], [], [⟨5, 10, "f", "k", "v"⟩]⟩ ⟨[]⟩ (by decide)).1⟩

/-- C7 counterexample: the claim states a database failure inside an
authenticated document operation is surfaced as a 500-class error rather
than a success-status response; but the `catch` blocks call `res.send`
with no `res.status(...)`, so the upload handler answers status 200 — a
success status, not 500-class — when the insert rejects. -/
theorem c7_counterexample_db_failure_gets_200 :
    (uploadHandler ⟨1, 1⟩ ⟨"report.pdf", [0], 42, "v1"⟩ 0 ⟨[], [], [], []⟩
        ⟨[]⟩ (some "connect ECONNREFUSED")).1.status = 200 ∧
    ¬ 500 ≤ (uploadHandler ⟨1, 1⟩ ⟨"report.pdf", [0], 42, "v1"⟩ 0
        ⟨[], [], [], []⟩ ⟨[]⟩ (some "connect ECONNREFUSED")).1.status := by
  decide

/-- C7 amended: when the database call inside an authenticated document
operation (upload, download, list productions, list documents) fails, the
handler answers HTTP 200 whose text body is `Error ` followed by the
underlying message — the failure is surfaced in the body with a default
success status, not as a 500-class status. -/
theorem c7_db_failure_surfaced_as_200_with_message (claim : Claim)
    (rq : UploadReq) (now docId : Nat) (db : DB) (s3 : S3) (msg : String) :
    (uploadHandler claim rq now db s3 (some msg)).1 =
      ⟨200, .text ("Error " ++ msg)⟩ ∧
    (productionsHandler claim db (some msg)).1 =
      ⟨200, .text ("Error " ++ msg)⟩ ∧
    (documentsHandler claim db (some msg)).1 =
      ⟨200, .text ("Error " ++ msg)⟩ ∧
    (downloadHandler claim docId db s3 (some msg)).1 =
      ⟨200, .text ("Error " ++ msg)⟩ :=
  ⟨rfl, rfl, rfl, rfl⟩

/-- The download trace is pool-balanced whenever the query succeeds. -/
theorem balanced_download_no_throw (claim : Claim) (docId : Nat) (db : DB)
    (s3 : S3) : balanced (downloadHandler claim docId db s3 none).2 := by
  unfold downloadHandler
  cases hdoc : documentById db docId with
  | none => rfl
  | some d =>
    dsimp only
    cases hs3 : s3Get s3 d.s3_key with
    | none => rfl
    | some o => rfl

/-- The login trace is pool-balanced whenever the query succeeds. -/
theorem balanced_login_no_throw (username raw : String) (db : DB)
    (secret : String) (now : Nat) :
    balanced (loginHandler username raw db secret now none).2 := by
  unfold loginHandler
  cases hu : userByUsername db username with
  | none => rfl
  | some u =>
    dsimp only
    cases hpw : bcryptCompare raw u.password with
    | false => rfl
    | true => rfl

/-- The `/user` trace is pool-balanced whenever the query succeeds. -/
theorem balanced_user_no_throw (claim : Claim) (db : DB) :
    balanced (userHandler claim db none).2 := by
  unfold userHandler
  cases hv : userViewById db claim.id with
  | none => rfl
  | some v => rfl

/-- C8 counterexample: the claim states every handler releases its pooled
connection on every exit path including a thrown query; but the `catch`
blocks never call `connection.release()`, so on the query-throw path the
trace holds the acquire with no matching release. -/
theorem c8_counterexample_query_throw_leaks_connection :
    Event.dbAcquire ∈
      (documentsHandler ⟨1, 1⟩ ⟨[], [], [], []⟩ (some "boom")).2 ∧
    Event.dbRelease ∉
      (documentsHandler ⟨1, 1⟩ ⟨[], [], [], []⟩ (some "boom")).2 := by
  decide

/-- C8 amended: every handler that acquires a pooled connection releases
it on every path on which the query call returns (success responses and
the early not-found returns alike), but on the path where the query throws
the `catch` block does not release it, so exactly one acquired connection
is leaked there. -/
theorem c8_release_on_return_leak_on_throw (claim : Claim) (rq : UploadReq)
    (now docId tnow : Nat) (db : DB) (s3 : S3)
    (username raw secret msg : String) :
    balanced (productionsHandler claim db none).2 ∧
    balanced (documentsHandler claim db none).2 ∧
    balanced (uploadHandler claim rq now db s3 none).2.2.2 ∧
    balanced (downloadHandler claim docId db s3 none).2 ∧
    balanced (loginHandler username raw db secret tnow none).2 ∧
    balanced (userHandler claim db none).2 ∧
    ((productionsHandler claim db (some msg)).2.count .dbAcquire = 1 ∧
     (productionsHandler claim db (some msg)).2.count .dbRelease = 0) ∧
    ((documentsHandler claim db (some msg)).2.count .dbAcquire = 1 ∧
     (documentsHandler claim db (some msg)).2.count .dbRelease = 0) ∧
    ((uploadHandler claim rq now db s3 (some msg)).2.2.2.count .dbAcquire = 1 ∧
     (uploadHandler claim rq now db s3 (some msg)).2.2.2.count .dbRelease = 0) ∧
    ((downloadHandler claim docId db s3 (some msg)).2.count .dbAcquire = 1 ∧
     (downloadHandler claim docId db s3 (some msg)).2.count .dbRelease = 0) ∧
    ((loginHandler username raw db secret tnow (some msg)).2.count .dbAcquire = 1 ∧
     (loginHandler username raw db secret tnow (some msg)).2.count .dbRelease = 0) ∧
    ((userHandler claim db (some msg)).2.count .dbAcquire = 1 ∧
     (userHandler claim db (some msg)).2.count .dbRelease = 0) :=
  ⟨rfl, rfl, rfl,
   balanced_download_no_throw claim docId db s3,
   balanced_login_no_throw username raw db secret tnow,
   balanced_user_no_throw claim db,
   ⟨rfl, rfl⟩, ⟨rfl, rfl⟩, ⟨rfl, rfl⟩, ⟨rfl, rfl⟩, ⟨rfl, rfl⟩, ⟨rfl, rfl⟩⟩

/-- C9: `POST /upload` performs no tenant check on the target production:
even when the production named in the request body belongs to a company
different from the claim's, the handler answers 200 and inserts the
metadata row referencing that `production_id` verbatim. -/
theorem c9_upload_no_tenant_check (claim : Claim) (rq : UploadReq)
    (now : Nat) (db : DB) (s3 : S3) (p : Production)
    (_hp : p ∈ db.productions) (_hpid : p.id = rq.production_id)
    (_hcross : p.company_id ≠ claim.company_id) :
    (uploadHandler claim rq now db s3 none).1.status = 200 ∧
    (uploadHandler claim rq now db s3 none).2.1.documents =
      db.documents ++
        [⟨freshDocId db, rq.production_id, rq.originalname,
          "uploads/" ++ toString now ++ "_" ++ rq.originalname,
          rq.version⟩] :=
  ⟨rfl, rfl⟩

/-- Store used to witness C9: the target production belongs to company 2,
the uploader's claim carries company 1. -/
def dbC9 : DB := ⟨[], [], [⟨42, "p", 2⟩], []⟩

/-- Witness for C9: a company-1 claim creates a document under company 2's
production 42. -/
theorem c9_witness :
    (⟨42, "p", 2⟩ : Production) ∈ dbC9.productions ∧
    (⟨42, "p", 2⟩ : Production).company_id ≠ (⟨7, 1⟩ : Claim).company_id ∧
    ((uploadHandler ⟨7, 1⟩ ⟨"report.pdf", [9], 42, "v1"⟩ 5 dbC9 ⟨[]⟩
        none).1.status = 200 ∧
     (uploadHandler ⟨7, 1⟩ ⟨"report.pdf", [9], 42, "v1"⟩ 5 dbC9 ⟨[]⟩
        none).2.1.documents =
       dbC9.documents ++
         [⟨freshDocId dbC9, 42, "report.pdf",
           "uploads/" ++ toString 5 ++ "_" ++ "report.pdf", "v1"⟩]) :=
  ⟨by decide, by decide,
    c9_upload_no_tenant_check ⟨7, 1⟩ ⟨"report.pdf", [9], 42, "v1"⟩ 5 dbC9
      ⟨[]⟩ ⟨42, "p", 2⟩ (by decide) (by decide) (by decide)⟩

/-- Two user rows that agree on `id`, `username` and `company_id` and may
differ only in the stored verifier. -/
def samePublicUser (u v : User) : Prop :=
  u.id = v.id ∧ u.username = v.username ∧ u.company_id = v.company_id

/-- Two `users` tables that agree row-by-row except possibly on the stored
verifier column. -/
def usersAgreeExceptPassword (l m : List User) : Prop :=
  List.Forall₂ samePublicUser l m

/-- The `/user` projection query cannot observe the verifier column: it
returns the same result over any two user tables that agree outside it. -/
theorem userViewById_congr {l m : List User}
    (h : List.Forall₂ samePublicUser l m) (cs cs' : List Company)
    (ps ps' : List Production) (ds ds' : List Document) (i : Nat) :
    userViewById ⟨l, cs, ps, ds⟩ i = userViewById ⟨m, cs', ps', ds'⟩ i := by
  unfold userViewById
  dsimp only
  induction h with
  | nil => rfl
  | @cons a b l1 l2 hab htl ih =>
    obtain ⟨h1, h2, h3⟩ := hab
    simp only [List.filter_cons]
    rw [show (a.id == i) = (b.id == i) by rw [h1]]
    cases hb : (b.id == i) with
    | false => simpa using ih
    | true => simp [h1, h2, h3]

/-- C10: `GET /user` selects only `id, username, company_id`, so its
response carries exactly those fields and never the stored verifier; for a
fixed claim the whole response (status, body, trace) is identical across
any two database states that differ only in stored verifier values. -/
theorem c10_user_lookup_verifier_noninterference (claim : Claim)
    (db1 db2 : DB) (e : Option String)
    (h : usersAgreeExceptPassword db1.users db2.users) :
    userHandler claim db1 e = userHandler claim db2 e ∧
    (∀ v, userViewById db1 claim.id = some v →
      (userHandler claim db1 none).1 = ⟨200, .jsonUserView v⟩) := by
  have hv : userViewById db1 claim.id = userViewById db2 claim.id :=
    userViewById_congr h db1.companies db2.companies db1.productions
      db2.productions db1.documents db2.documents claim.id
  refine ⟨?_, ?_⟩
  · cases e with
    | some msg => rfl
    | none => simp only [userHandler, hv]
  · intro v hvv
    simp [userHandler, hvv]

/-- First store used to witness C10. -/
def dbC10a : DB := ⟨[⟨3, "alice", "bcrypt$pw", 9⟩], [], [], []⟩

/-- Second store used to witness C10: same user, different verifier. -/
def dbC10b : DB := ⟨[⟨3, "alice", "bcrypt$other", 9⟩], [], [], []⟩

/-- Witness for C10: the `/user` response is unchanged when only the
stored verifier differs. -/
theorem c10_witness :
    usersAgreeExceptPassword dbC10a.users dbC10b.users ∧
    userHandler ⟨3, 9⟩ dbC10a none = userHandler ⟨3, 9⟩ dbC10b none :=
  ⟨List.Forall₂.cons ⟨rfl, rfl, rfl⟩ List.Forall₂.nil,
    (c10_user_lookup_verifier_noninterference ⟨3, 9⟩ dbC10a dbC10b none
      (List.Forall₂.cons ⟨rfl, rfl, rfl⟩ List.Forall₂.nil)).1⟩

end QibBack
